import Mathlib

/-!
Shallow embedding of the collision-BSP traversal and validation code of the
`funnel-web` repository (`src/collision_bsp.rs`, with the plane/vector types
from `src/vector.rs`), together with theorems settling the frozen claims
about it.

Modelling conventions:
* Rust `usize` values are modelled as `Nat`; the one place where `usize`
  overflow matters (`checked_add` in `bounds_check`) is modelled explicitly
  against `USIZE_MAX = 2^64 - 1`.
* The packed 32-bit indices (`u32`) are modelled as `Nat` wrapped in a
  structure; theorems about the codec carry the explicit `< 2^32` bound.
* `f32` scalars are modelled as exact rationals `ℚ`. None of the claims
  depend on floating-point rounding: they concern the shape of the distance
  formula, the `≥ 0` branch condition and the control flow, all of which
  are preserved exactly by this embedding.
* The `CollisionBSPFunctions` trait is modelled as a structure of functions
  (the BSP data provider); the trait's provided methods become functions
  taking the provider as their first argument.
* Fallible code returns `Except CollisionBSPError`; `for`-loops with early
  `?` exit are modelled by structural recursion on the (explicit) iteration
  count, mirroring the Rust ranges one-for-one.
-/

namespace FunnelWeb

/-- 3D vector with rational components (models `Vector3D` with `f32` fields). -/
structure Vector3D where
  x : ℚ
  y : ℚ
  z : ℚ
deriving DecidableEq

/-- `Vector3D::dot`: `self.x * other.x + self.y * other.y + self.z * other.z`. -/
def Vector3D.dot (self other : Vector3D) : ℚ :=
  self.x * other.x + self.y * other.y + self.z * other.z

/-- 2D vector (models `Vector2D`). -/
structure Vector2D where
  x : ℚ
  y : ℚ
deriving DecidableEq

/-- Models `Plane3D { vector: Vector3D, offset: f32 }`. -/
structure Plane3D where
  vector : Vector3D
  offset : ℚ
deriving DecidableEq

/-- `Plane3D::distance_to_point`: `point.dot(&self.vector) - self.offset`. -/
def Plane3D.distance_to_point (self : Plane3D) (point : Vector3D) : ℚ :=
  point.dot self.vector - self.offset

/-- Models `Plane2D { offset: f32, vector: Vector2D }`. -/
structure Plane2D where
  offset : ℚ
  vector : Vector2D
deriving DecidableEq

/-- Discriminant returned by `CollisionBSP3DNodeIndex::as_tuple`. -/
inductive CollisionBSP3DNodeIndexType where
  | Node
  | Leaf
deriving DecidableEq

/-- Packed 3D child index: a `u32` whose high bit discriminates node/leaf and
whose value `0xFFFFFFFF` is the null sentinel. The wrapped `Nat` stands for
the `u32` value. -/
structure CollisionBSP3DNodeIndex where
  val : Nat
deriving DecidableEq

/-- `CollisionBSP3DNodeIndex::as_tuple`: `None` for the `0xFFFFFFFF` sentinel;
otherwise the masked 31-bit index, tagged `Node` if masking changed nothing
(high bit clear) and `Leaf` otherwise. -/
def CollisionBSP3DNodeIndex.as_tuple (self : CollisionBSP3DNodeIndex) :
    Option (CollisionBSP3DNodeIndexType × Nat) :=
  if self.val = 0xFFFFFFFF then
    none
  else
    let index := self.val &&& 0x7FFFFFFF
    let index_type :=
      if index = self.val then CollisionBSP3DNodeIndexType.Node
      else CollisionBSP3DNodeIndexType.Leaf
    some (index_type, index)

/-- Discriminant returned by `CollisionBSP2DNodeIndex::as_tuple`. -/
inductive CollisionBSP2DNodeIndexType where
  | Node
  | Surface
deriving DecidableEq

/-- Packed 2D child index: a `u32` whose high bit discriminates
node/surface (no null sentinel). -/
structure CollisionBSP2DNodeIndex where
  val : Nat
deriving DecidableEq

/-- `CollisionBSP2DNodeIndex::as_tuple`: total; the masked 31-bit index,
tagged `Node` if the high bit is clear and `Surface` otherwise. -/
def CollisionBSP2DNodeIndex.as_tuple (self : CollisionBSP2DNodeIndex) :
    CollisionBSP2DNodeIndexType × Nat :=
  let index := self.val &&& 0x7FFFFFFF
  let index_type :=
    if index = self.val then CollisionBSP2DNodeIndexType.Node
    else CollisionBSP2DNodeIndexType.Surface
  (index_type, index)

/-- Models `CollisionBSP3DNode`. -/
structure CollisionBSP3DNode where
  front_child : CollisionBSP3DNodeIndex
  back_child : CollisionBSP3DNodeIndex
  plane_index : Nat
deriving DecidableEq

/-- Models `CollisionBSPLeaf`. -/
structure CollisionBSPLeaf where
  contains_double_sided_surfaces : Bool
  bsp_2d_node_reference_start : Nat
  bsp_2d_node_reference_count : Nat
deriving DecidableEq

/-- Models `BSP2DNodeReference`. -/
structure BSP2DNodeReference where
  plane : Nat
  node : CollisionBSP2DNodeIndex
deriving DecidableEq

/-- Models `CollisionBSP2DNode`. -/
structure CollisionBSP2DNode where
  plane : Plane2D
  left_child : CollisionBSP2DNodeIndex
  right_child : CollisionBSP2DNodeIndex
deriving DecidableEq

/-- Models `CollisionBSPSurface` (`material: u16` is modelled as `Nat`). -/
structure CollisionBSPSurface where
  plane : Nat
  material : Nat
deriving DecidableEq

/-- Models `CollisionBSPError`. -/
inductive CollisionBSPError where
  | BSP3DNodeLoop (n : Nat)
  | Missing3DNode (n : Nat)
  | Missing2DNode (n : Nat)
  | Missing2DNodeReference (n : Nat)
  | BadLeaf (n : Nat)
  | Bad2DReference (n : Nat)
  | MissingPlane (n : Nat)
  | MissingLeaf (n : Nat)
  | MissingSurface (n : Nat)
deriving DecidableEq

/-- The BSP data provider: the required methods of the
`CollisionBSPFunctions` trait, as a structure of functions. -/
structure CollisionBSPFunctions where
  get_3d_node : Nat → Option CollisionBSP3DNode
  get_3d_node_count : Nat
  get_plane : Nat → Option Plane3D
  get_plane_count : Nat
  get_leaf : Nat → Option CollisionBSPLeaf
  get_leaf_count : Nat
  get_2d_node_reference : Nat → Option BSP2DNodeReference
  get_2d_node_reference_count : Nat
  get_2d_node : Nat → Option CollisionBSP2DNode
  get_2d_node_count : Nat
  get_surface : Nat → Option CollisionBSPSurface
  get_surface_count : Nat

/-- Largest value of the Rust `usize` type (64-bit target). -/
def USIZE_MAX : Nat := 2 ^ 64 - 1

/-- Models `usize::checked_add`: `none` exactly when the mathematical sum
exceeds `USIZE_MAX`. -/
def usizeCheckedAdd (a b : Nat) : Option Nat :=
  if a + b ≤ USIZE_MAX then some (a + b) else none

namespace CollisionBSPFunctions

/-- The loop body of `leaf_index_for_point`, with the remaining iteration
budget made explicit as `fuel`. Running out of fuel is the Rust loop
running to completion, after which `Err(BSP3DNodeLoop(index))` is returned
with the current (next-to-visit) value of `index`. -/
def leafIndexLoop (bsp : CollisionBSPFunctions) (point : Vector3D) :
    Nat → Nat → Except CollisionBSPError (Option Nat)
  | 0, index => .error (.BSP3DNodeLoop index)
  | fuel + 1, index =>
    match bsp.get_3d_node index with
    | none => .error (.Missing3DNode index)
    | some node =>
      match bsp.get_plane node.plane_index with
      | none => .error (.MissingPlane node.plane_index)
      | some plane =>
        let next :=
          if plane.distance_to_point point ≥ 0 then node.front_child
          else node.back_child
        match next.as_tuple with
        | some (CollisionBSP3DNodeIndexType.Node, next_index) =>
            leafIndexLoop bsp point fuel next_index
        | some (CollisionBSP3DNodeIndexType.Leaf, leaf) => .ok (some leaf)
        | none => .ok none

/-- `CollisionBSPFunctions::leaf_index_for_point`: descend from 3D node 0
with an iteration budget of `max(node_count, 1)`. -/
def leaf_index_for_point (bsp : CollisionBSPFunctions) (point : Vector3D) :
    Except CollisionBSPError (Option Nat) :=
  leafIndexLoop bsp point (Nat.max bsp.get_3d_node_count 1) 0

/-- `CollisionBSPFunctions::point_inside_bsp`: wraps `leaf_index_for_point`,
mapping a found leaf to `true` and "outside" to `false`. -/
def point_inside_bsp (bsp : CollisionBSPFunctions) (point : Vector3D) :
    Except CollisionBSPError Bool :=
  (bsp.leaf_index_for_point point).map Option.isSome

/-- Instrumentation of `leafIndexLoop`: the list of 3D-node indices the loop
successfully fetches (the nodes it evaluates), in visiting order. Mirrors
`leafIndexLoop` step for step. -/
def leafIndexTrace (bsp : CollisionBSPFunctions) (point : Vector3D) :
    Nat → Nat → List Nat
  | 0, _ => []
  | fuel + 1, index =>
    match bsp.get_3d_node index with
    | none => []
    | some node =>
      match bsp.get_plane node.plane_index with
      | none => [index]
      | some plane =>
        let next :=
          if plane.distance_to_point point ≥ 0 then node.front_child
          else node.back_child
        match next.as_tuple with
        | some (CollisionBSP3DNodeIndexType.Node, next_index) =>
            index :: leafIndexTrace bsp point fuel next_index
        | some (CollisionBSP3DNodeIndexType.Leaf, _) => [index]
        | none => [index]

/-- The 3D nodes evaluated by `leaf_index_for_point` on `point`, in order. -/
def visited3DNodes (bsp : CollisionBSPFunctions) (point : Vector3D) : List Nat :=
  leafIndexTrace bsp point (Nat.max bsp.get_3d_node_count 1) 0

/-- Runs a check on each of `n` consecutive indices starting at `lo`,
stopping at the first error: models `for i in lo..lo+n { f(i)? }`. -/
def checkRange (f : Nat → Except CollisionBSPError Unit) :
    Nat → Nat → Except CollisionBSPError Unit
  | _, 0 => .ok ()
  | lo, n + 1 =>
    match f lo with
    | .error e => .error e
    | .ok _ => checkRange f (lo + 1) n

/-- The `check` closure of the 3D-node loop of `bounds_check`: a child must
decode to an existing 3D node or existing leaf; null is accepted. -/
def check3DChild (bsp : CollisionBSPFunctions) (a : CollisionBSP3DNodeIndex) :
    Except CollisionBSPError Unit :=
  match a.as_tuple with
  | some (CollisionBSP3DNodeIndexType.Node, b) =>
    match bsp.get_3d_node b with
    | none => .error (.Missing3DNode b)
    | some _ => .ok ()
  | some (CollisionBSP3DNodeIndexType.Leaf, b) =>
    match bsp.get_leaf b with
    | none => .error (.MissingLeaf b)
    | some _ => .ok ()
  | none => .ok ()

/-- One iteration of the first loop of `bounds_check`: fetch 3D node `i`,
its plane, and check both children. -/
def check3DNodeAt (bsp : CollisionBSPFunctions) (i : Nat) :
    Except CollisionBSPError Unit :=
  match bsp.get_3d_node i with
  | none => .error (.Missing3DNode i)
  | some node =>
    match bsp.get_plane node.plane_index with
    | none => .error (.MissingPlane node.plane_index)
    | some _ =>
      match bsp.check3DChild node.front_child with
      | .error e => .error e
      | .ok _ => bsp.check3DChild node.back_child

/-- One iteration of the plane loop of `bounds_check`. -/
def checkPlaneAt (bsp : CollisionBSPFunctions) (p : Nat) :
    Except CollisionBSPError Unit :=
  match bsp.get_plane p with
  | none => .error (.MissingPlane p)
  | some _ => .ok ()

/-- One iteration of the inner 2D-node-reference range loop of the leaf
check. -/
def checkLeafRefAt (bsp : CollisionBSPFunctions) (r : Nat) :
    Except CollisionBSPError Unit :=
  match bsp.get_2d_node_reference r with
  | none => .error (.Missing2DNodeReference r)
  | some _ => .ok ()

/-- One iteration of the leaf loop of `bounds_check`: fetch leaf `l`, add
its 2D-node-reference start and count with overflow checking, then check
every index in `[start, start + count)`. -/
def checkLeafAt (bsp : CollisionBSPFunctions) (l : Nat) :
    Except CollisionBSPError Unit :=
  match bsp.get_leaf l with
  | none => .error (.MissingLeaf l)
  | some leaf =>
    match usizeCheckedAdd leaf.bsp_2d_node_reference_start
        leaf.bsp_2d_node_reference_count with
    | none => .error (.BadLeaf l)
    | some _ =>
      checkRange bsp.checkLeafRefAt leaf.bsp_2d_node_reference_start
        leaf.bsp_2d_node_reference_count

/-- One iteration of the 2D-node-reference loop of `bounds_check`: the
reference must exist, its plane must resolve, and its child must decode
to an existing 2D node (a surface child is malformed). -/
def check2DReferenceAt (bsp : CollisionBSPFunctions) (r : Nat) :
    Except CollisionBSPError Unit :=
  match bsp.get_2d_node_reference r with
  | none => .error (.Missing2DNodeReference r)
  | some reference =>
    match bsp.get_plane reference.plane with
    | none => .error (.MissingPlane reference.plane)
    | some _ =>
      match reference.node.as_tuple with
      | (CollisionBSP2DNodeIndexType.Node, n) =>
        match bsp.get_2d_node n with
        | none => .error (.Missing2DNode n)
        | some _ => .ok ()
      | (CollisionBSP2DNodeIndexType.Surface, _) =>
        .error (.Bad2DReference r)

/-- The `check` closure of the 2D-node loop of `bounds_check`: a child must
decode to an existing 2D node or existing surface. -/
def check2DChild (bsp : CollisionBSPFunctions) (a : CollisionBSP2DNodeIndex) :
    Except CollisionBSPError Unit :=
  match a.as_tuple with
  | (CollisionBSP2DNodeIndexType.Node, b) =>
    match bsp.get_2d_node b with
    | none => .error (.Missing2DNode b)
    | some _ => .ok ()
  | (CollisionBSP2DNodeIndexType.Surface, b) =>
    match bsp.get_surface b with
    | none => .error (.MissingSurface b)
    | some _ => .ok ()

/-- One iteration of the 2D-node loop of `bounds_check`. -/
def check2DNodeAt (bsp : CollisionBSPFunctions) (i : Nat) :
    Except CollisionBSPError Unit :=
  match bsp.get_2d_node i with
  | none => .error (.Missing2DNode i)
  | some node =>
    match bsp.check2DChild node.left_child with
    | .error e => .error e
    | .ok _ => bsp.check2DChild node.right_child

/-- One iteration of the surface loop of `bounds_check`. -/
def checkSurfaceAt (bsp : CollisionBSPFunctions) (s : Nat) :
    Except CollisionBSPError Unit :=
  match bsp.get_surface s with
  | none => .error (.MissingSurface s)
  | some surface =>
    match bsp.get_plane surface.plane with
    | none => .error (.MissingPlane surface.plane)
    | some _ => .ok ()

/-- First loop of `bounds_check`: `for node in 0..bsp_3d_node_count.max(1)`. -/
def check3DNodes (bsp : CollisionBSPFunctions) : Except CollisionBSPError Unit :=
  checkRange bsp.check3DNodeAt 0 (Nat.max bsp.get_3d_node_count 1)

/-- Second loop of `bounds_check`: `for p in 0..get_plane_count()`. -/
def checkPlanes (bsp : CollisionBSPFunctions) : Except CollisionBSPError Unit :=
  checkRange bsp.checkPlaneAt 0 bsp.get_plane_count

/-- Third loop of `bounds_check`: `for l in 0..=get_leaf_count()` — note the
inclusive upper bound, giving `leaf_count + 1` iterations. -/
def checkLeaves (bsp : CollisionBSPFunctions) : Except CollisionBSPError Unit :=
  checkRange bsp.checkLeafAt 0 (bsp.get_leaf_count + 1)

/-- Fourth loop of `bounds_check`: `for r in 0..get_2d_node_reference_count()`. -/
def check2DReferences (bsp : CollisionBSPFunctions) :
    Except CollisionBSPError Unit :=
  checkRange bsp.check2DReferenceAt 0 bsp.get_2d_node_reference_count

/-- Fifth loop of `bounds_check`: `for node in 0..get_2d_node_count()`. -/
def check2DNodes (bsp : CollisionBSPFunctions) : Except CollisionBSPError Unit :=
  checkRange bsp.check2DNodeAt 0 bsp.get_2d_node_count

/-- Sixth loop of `bounds_check`: `for s in 0..get_surface_count()`. -/
def checkSurfaces (bsp : CollisionBSPFunctions) : Except CollisionBSPError Unit :=
  checkRange bsp.checkSurfaceAt 0 bsp.get_surface_count

/-- `CollisionBSPFunctions::bounds_check`: the six validation loops in
source order, each short-circuiting on its first error. -/
def bounds_check (bsp : CollisionBSPFunctions) : Except CollisionBSPError Unit :=
  match bsp.check3DNodes with
  | .error e => .error e
  | .ok _ =>
    match bsp.checkPlanes with
    | .error e => .error e
    | .ok _ =>
      match bsp.checkLeaves with
      | .error e => .error e
      | .ok _ =>
        match bsp.check2DReferences with
        | .error e => .error e
        | .ok _ =>
          match bsp.check2DNodes with
          | .error e => .error e
          | .ok _ => bsp.checkSurfaces

end CollisionBSPFunctions

/-! ### Concrete providers used as witnesses and counterexamples -/

/-- The null 3D child index `0xFFFFFFFF`. -/
def nullIdx : CollisionBSP3DNodeIndex := ⟨0xFFFFFFFF⟩

/-- A plane through the origin with zero normal: every point has distance
`0 - 0 = 0`, so the front child is always chosen. -/
def zeroPlane : Plane3D := ⟨⟨0, 0, 0⟩, 0⟩

/-- The origin, used as a concrete query point. -/
def originPoint : Vector3D := ⟨0, 0, 0⟩

/-- A 3D node on plane 0 whose children are both null. -/
def node0 : CollisionBSP3DNode := ⟨nullIdx, nullIdx, 0⟩

/-- A family of providers, complete in every table, whose leaf 0 references
2D-node-reference indices `[5, 5 + 3)` against a reference table of length
`m`: one 3D node with null children, one plane, leaves 0 and 1 (the leaf
count is 1), `m` 2D node references each entering 2D node 0, one 2D node
whose children are surface 0, and one surface. -/
def mkBSP (m : Nat) : CollisionBSPFunctions where
  get_3d_node := fun i => if i = 0 then some node0 else none
  get_3d_node_count := 1
  get_plane := fun p => if p = 0 then some zeroPlane else none
  get_plane_count := 1
  get_leaf := fun l =>
    if l = 0 then some ⟨false, 5, 3⟩
    else if l = 1 then some ⟨false, 0, 0⟩
    else none
  get_leaf_count := 1
  get_2d_node_reference := fun r => if r < m then some ⟨0, ⟨0⟩⟩ else none
  get_2d_node_reference_count := m
  get_2d_node := fun n =>
    if n = 0 then some ⟨⟨0, ⟨0, 0⟩⟩, ⟨0x80000000⟩, ⟨0x80000000⟩⟩ else none
  get_2d_node_count := 1
  get_surface := fun s => if s = 0 then some ⟨0, 0⟩ else none
  get_surface_count := 1

/-- Provider whose 3D node 0 is its own front child (raw index 0): the
self-loop cycle scenario. -/
def loopBSP : CollisionBSPFunctions where
  get_3d_node := fun i => if i = 0 then some ⟨⟨0⟩, nullIdx, 0⟩ else none
  get_3d_node_count := 1
  get_plane := fun p => if p = 0 then some zeroPlane else none
  get_plane_count := 1
  get_leaf := fun _ => none
  get_leaf_count := 0
  get_2d_node_reference := fun _ => none
  get_2d_node_reference_count := 0
  get_2d_node := fun _ => none
  get_2d_node_count := 0
  get_surface := fun _ => none
  get_surface_count := 0

/-- Provider with node count 2 forming the front-child chain
`0 → 1 → 2`, where node 2 does not exist: the iteration budget of
`max(2, 1) = 2` is exhausted after visiting nodes 0 and 1, and the loop
error reports the never-visited index 2. -/
def chainBSP : CollisionBSPFunctions where
  get_3d_node := fun i =>
    if i = 0 then some ⟨⟨1⟩, nullIdx, 0⟩
    else if i = 1 then some ⟨⟨2⟩, nullIdx, 0⟩
    else none
  get_3d_node_count := 2
  get_plane := fun p => if p = 0 then some zeroPlane else none
  get_plane_count := 1
  get_leaf := fun _ => none
  get_leaf_count := 0
  get_2d_node_reference := fun _ => none
  get_2d_node_reference_count := 0
  get_2d_node := fun _ => none
  get_2d_node_count := 0
  get_surface := fun _ => none
  get_surface_count := 0

/-- The empty provider: every count is 0 and every lookup is absent. -/
def emptyBSP : CollisionBSPFunctions where
  get_3d_node := fun _ => none
  get_3d_node_count := 0
  get_plane := fun _ => none
  get_plane_count := 0
  get_leaf := fun _ => none
  get_leaf_count := 0
  get_2d_node_reference := fun _ => none
  get_2d_node_reference_count := 0
  get_2d_node := fun _ => none
  get_2d_node_count := 0
  get_surface := fun _ => none
  get_surface_count := 0

/-- Provider whose single 3D node's front child decodes to leaf 0
(raw `0x80000000`), while `get_leaf` is absent everywhere. -/
def noLeafBSP : CollisionBSPFunctions where
  get_3d_node := fun i => if i = 0 then some ⟨⟨0x80000000⟩, nullIdx, 0⟩ else none
  get_3d_node_count := 1
  get_plane := fun p => if p = 0 then some zeroPlane else none
  get_plane_count := 1
  get_leaf := fun _ => none
  get_leaf_count := 0
  get_2d_node_reference := fun _ => none
  get_2d_node_reference_count := 0
  get_2d_node := fun _ => none
  get_2d_node_count := 0
  get_surface := fun _ => none
  get_surface_count := 0

/-- Provider with a valid 3D-node and plane table but no leaf at all: the
leaf count is 0 yet the inclusive leaf loop still demands leaf 0. -/
def missingLeafBSP : CollisionBSPFunctions where
  get_3d_node := fun i => if i = 0 then some node0 else none
  get_3d_node_count := 1
  get_plane := fun p => if p = 0 then some zeroPlane else none
  get_plane_count := 1
  get_leaf := fun _ => none
  get_leaf_count := 0
  get_2d_node_reference := fun _ => none
  get_2d_node_reference_count := 0
  get_2d_node := fun _ => none
  get_2d_node_count := 0
  get_surface := fun _ => none
  get_surface_count := 0

/-- Provider whose leaf 0 has 2D-node-reference start `USIZE_MAX` and
count 1, so the checked sum overflows. -/
def overflowBSP : CollisionBSPFunctions where
  get_3d_node := fun i => if i = 0 then some node0 else none
  get_3d_node_count := 1
  get_plane := fun p => if p = 0 then some zeroPlane else none
  get_plane_count := 1
  get_leaf := fun l => if l = 0 then some ⟨false, USIZE_MAX, 1⟩ else none
  get_leaf_count := 0
  get_2d_node_reference := fun _ => none
  get_2d_node_reference_count := 0
  get_2d_node := fun _ => none
  get_2d_node_count := 0
  get_surface := fun _ => none
  get_surface_count := 0

/-- Provider whose single 2D node reference's child decodes to surface 0
(raw `0x80000000`): an illegal 2D entry point. -/
def badRefBSP : CollisionBSPFunctions where
  get_3d_node := fun i => if i = 0 then some node0 else none
  get_3d_node_count := 1
  get_plane := fun p => if p = 0 then some zeroPlane else none
  get_plane_count := 1
  get_leaf := fun l => if l ≤ 1 then some ⟨false, 0, 0⟩ else none
  get_leaf_count := 1
  get_2d_node_reference := fun r => if r = 0 then some ⟨0, ⟨0x80000000⟩⟩ else none
  get_2d_node_reference_count := 1
  get_2d_node := fun _ => none
  get_2d_node_count := 0
  get_surface := fun s => if s = 0 then some ⟨0, 0⟩ else none
  get_surface_count := 1

/-! ### Resolution predicates (the claims' notion of "resolves") -/

/-- A 3D child reference resolves: null is fine, a node child must exist in
the 3D-node table, a leaf child must exist in the leaf table. -/
def resolves3DChild (bsp : CollisionBSPFunctions)
    (a : CollisionBSP3DNodeIndex) : Prop :=
  match a.as_tuple with
  | some (CollisionBSP3DNodeIndexType.Node, b) => ∃ x, bsp.get_3d_node b = some x
  | some (CollisionBSP3DNodeIndexType.Leaf, b) => ∃ x, bsp.get_leaf b = some x
  | none => True

/-- A 2D child reference resolves: a node child must exist in the 2D-node
table, a surface child must exist in the surface table. -/
def resolves2DChild (bsp : CollisionBSPFunctions)
    (a : CollisionBSP2DNodeIndex) : Prop :=
  match a.as_tuple with
  | (CollisionBSP2DNodeIndexType.Node, b) => ∃ x, bsp.get_2d_node b = some x
  | (CollisionBSP2DNodeIndexType.Surface, b) => ∃ x, bsp.get_surface b = some x

/-! ### General lemmas about the validator -/

namespace CollisionBSPFunctions

theorem checkRange_ok {f : Nat → Except CollisionBSPError Unit} :
    ∀ (n lo : Nat), checkRange f lo n = .ok () → ∀ k, k < n → f (lo + k) = .ok ()
  | 0, _, _, k, hk => absurd hk (Nat.not_lt_zero k)
  | n + 1, lo, h, k, hk => by
    unfold checkRange at h
    cases hf : f lo with
    | error e => rw [hf] at h; exact absurd h (by simp)
    | ok u =>
      rw [hf] at h
      cases k with
      | zero => cases u; simpa using hf
      | succ k =>
        have hrec := checkRange_ok n (lo + 1) h k (by omega)
        have harith : lo + 1 + k = lo + (k + 1) := by omega
        rwa [harith] at hrec

theorem checkRange_all_ok {f : Nat → Except CollisionBSPError Unit} :
    ∀ (n lo : Nat), (∀ k, k < n → f (lo + k) = .ok ()) → checkRange f lo n = .ok ()
  | 0, _, _ => rfl
  | n + 1, lo, h => by
    unfold checkRange
    have h0 : f lo = .ok () := by simpa using h 0 (by omega)
    rw [h0]
    exact checkRange_all_ok n (lo + 1) fun k hk => by
      have harith : lo + 1 + k = lo + (k + 1) := by omega
      rw [harith]; exact h (k + 1) (by omega)

theorem checkRange_error {f : Nat → Except CollisionBSPError Unit}
    {e : CollisionBSPError} :
    ∀ (n lo j : Nat), (∀ k, k < j → f (lo + k) = .ok ()) → j < n →
      f (lo + j) = .error e → checkRange f lo n = .error e
  | 0, _, j, _, hj, _ => absurd hj (Nat.not_lt_zero j)
  | n + 1, lo, 0, _, _, herr => by
    unfold checkRange
    rw [show lo + 0 = lo from rfl] at herr
    rw [herr]
  | n + 1, lo, j + 1, hok, hj, herr => by
    unfold checkRange
    have h0 : f lo = .ok () := by simpa using hok 0 (by omega)
    rw [h0]
    refine checkRange_error n (lo + 1) j (fun k hk => ?_) (by omega) ?_
    · have harith : lo + 1 + k = lo + (k + 1) := by omega
      rw [harith]; exact hok (k + 1) (by omega)
    · have harith : lo + 1 + j = lo + (j + 1) := by omega
      rw [harith]; exact herr

theorem check3DChild_ok {bsp : CollisionBSPFunctions}
    {a : CollisionBSP3DNodeIndex} (h : bsp.check3DChild a = .ok ()) :
    resolves3DChild bsp a := by
  unfold check3DChild at h
  unfold resolves3DChild
  split at h
  · split at h
    · simp at h
    · rename_i x hx
      exact ⟨x, hx⟩
  · split at h
    · simp at h
    · rename_i x hx
      exact ⟨x, hx⟩
  · trivial

theorem check3DNodeAt_ok {bsp : CollisionBSPFunctions} {i : Nat}
    (h : bsp.check3DNodeAt i = .ok ()) :
    ∃ node, bsp.get_3d_node i = some node ∧
      (∃ pl, bsp.get_plane node.plane_index = some pl) ∧
      resolves3DChild bsp node.front_child ∧
      resolves3DChild bsp node.back_child := by
  unfold check3DNodeAt at h
  split at h
  · simp at h
  · rename_i node hg
    split at h
    · simp at h
    · rename_i pl hp
      split at h
      · simp at h
      · rename_i u hf
        cases u
        exact ⟨node, hg, ⟨pl, hp⟩, check3DChild_ok hf, check3DChild_ok h⟩

theorem checkPlaneAt_ok {bsp : CollisionBSPFunctions} {p : Nat}
    (h : bsp.checkPlaneAt p = .ok ()) : ∃ pl, bsp.get_plane p = some pl := by
  unfold checkPlaneAt at h
  split at h
  · simp at h
  · rename_i pl hp
    exact ⟨pl, hp⟩

theorem checkLeafRefAt_ok {bsp : CollisionBSPFunctions} {r : Nat}
    (h : bsp.checkLeafRefAt r = .ok ()) :
    ∃ ref, bsp.get_2d_node_reference r = some ref := by
  unfold checkLeafRefAt at h
  split at h
  · simp at h
  · rename_i ref hr
    exact ⟨ref, hr⟩

theorem checkLeafAt_ok {bsp : CollisionBSPFunctions} {l : Nat}
    (h : bsp.checkLeafAt l = .ok ()) :
    ∃ leaf, bsp.get_leaf l = some leaf ∧
      leaf.bsp_2d_node_reference_start + leaf.bsp_2d_node_reference_count ≤ USIZE_MAX ∧
      ∀ r, leaf.bsp_2d_node_reference_start ≤ r →
        r < leaf.bsp_2d_node_reference_start + leaf.bsp_2d_node_reference_count →
        ∃ ref, bsp.get_2d_node_reference r = some ref := by
  unfold checkLeafAt at h
  split at h
  · simp at h
  · rename_i leaf hg
    split at h
    · simp at h
    · rename_i e he
      unfold usizeCheckedAdd at he
      have hov : leaf.bsp_2d_node_reference_start +
          leaf.bsp_2d_node_reference_count ≤ USIZE_MAX := by
        by_contra hc
        rw [if_neg hc] at he
        exact absurd he (by simp)
      refine ⟨leaf, hg, hov, fun r hr1 hr2 => ?_⟩
      have hk := checkRange_ok _ _ h (r - leaf.bsp_2d_node_reference_start)
        (by omega)
      have harith : leaf.bsp_2d_node_reference_start +
          (r - leaf.bsp_2d_node_reference_start) = r := by omega
      rw [harith] at hk
      exact checkLeafRefAt_ok hk

theorem check2DReferenceAt_ok {bsp : CollisionBSPFunctions} {r : Nat}
    (h : bsp.check2DReferenceAt r = .ok ()) :
    ∃ ref, bsp.get_2d_node_reference r = some ref ∧
      (∃ pl, bsp.get_plane ref.plane = some pl) ∧
      ∃ b, ref.node.as_tuple = (CollisionBSP2DNodeIndexType.Node, b) ∧
        ∃ nd, bsp.get_2d_node b = some nd := by
  unfold check2DReferenceAt at h
  split at h
  · simp at h
  · rename_i ref hg
    split at h
    · simp at h
    · rename_i pl hp
      split at h
      · rename_i b hb
        split at h
        · simp at h
        · rename_i nd hn
          exact ⟨ref, hg, ⟨pl, hp⟩, b, hb, nd, hn⟩
      · simp at h

theorem check2DChild_ok {bsp : CollisionBSPFunctions}
    {a : CollisionBSP2DNodeIndex} (h : bsp.check2DChild a = .ok ()) :
    resolves2DChild bsp a := by
  unfold check2DChild at h
  unfold resolves2DChild
  split at h
  · split at h
    · simp at h
    · rename_i x hx
      exact ⟨x, hx⟩
  · split at h
    · simp at h
    · rename_i x hx
      exact ⟨x, hx⟩

theorem check2DNodeAt_ok {bsp : CollisionBSPFunctions} {i : Nat}
    (h : bsp.check2DNodeAt i = .ok ()) :
    ∃ node, bsp.get_2d_node i = some node ∧
      resolves2DChild bsp node.left_child ∧
      resolves2DChild bsp node.right_child := by
  unfold check2DNodeAt at h
  split at h
  · simp at h
  · rename_i node hg
    split at h
    · simp at h
    · rename_i u hl
      cases u
      exact ⟨node, hg, check2DChild_ok hl, check2DChild_ok h⟩

theorem checkSurfaceAt_ok {bsp : CollisionBSPFunctions} {s : Nat}
    (h : bsp.checkSurfaceAt s = .ok ()) :
    ∃ srf, bsp.get_surface s = some srf ∧
      ∃ pl, bsp.get_plane srf.plane = some pl := by
  unfold checkSurfaceAt at h
  split at h
  · simp at h
  · rename_i srf hg
    split at h
    · simp at h
    · rename_i pl hp
      exact ⟨srf, hg, pl, hp⟩

theorem bounds_check_ok {bsp : CollisionBSPFunctions}
    (h : bsp.bounds_check = .ok ()) :
    bsp.check3DNodes = .ok () ∧ bsp.checkPlanes = .ok () ∧
      bsp.checkLeaves = .ok () ∧ bsp.check2DReferences = .ok () ∧
      bsp.check2DNodes = .ok () ∧ bsp.checkSurfaces = .ok () := by
  unfold bounds_check at h
  cases h1 : bsp.check3DNodes with
  | error e => rw [h1] at h; exact absurd h (by simp)
  | ok u =>
    cases u; rw [h1] at h
    cases h2 : bsp.checkPlanes with
    | error e => rw [h2] at h; exact absurd h (by simp)
    | ok u =>
      cases u; rw [h2] at h
      cases h3 : bsp.checkLeaves with
      | error e => rw [h3] at h; exact absurd h (by simp)
      | ok u =>
        cases u; rw [h3] at h
        cases h4 : bsp.check2DReferences with
        | error e => rw [h4] at h; exact absurd h (by simp)
        | ok u =>
          cases u; rw [h4] at h
          cases h5 : bsp.check2DNodes with
          | error e => rw [h5] at h; exact absurd h (by simp)
          | ok u =>
            cases u; rw [h5] at h
            exact ⟨rfl, rfl, rfl, rfl, rfl, h⟩

theorem bounds_check_error_at_leaves {bsp : CollisionBSPFunctions}
    {e : CollisionBSPError} (h1 : bsp.check3DNodes = .ok ())
    (h2 : bsp.checkPlanes = .ok ()) (h3 : bsp.checkLeaves = .error e) :
    bsp.bounds_check = .error e := by
  unfold bounds_check
  rw [h1, h2, h3]

theorem bounds_check_error_at_references {bsp : CollisionBSPFunctions}
    {e : CollisionBSPError} (h1 : bsp.check3DNodes = .ok ())
    (h2 : bsp.checkPlanes = .ok ()) (h3 : bsp.checkLeaves = .ok ())
    (h4 : bsp.check2DReferences = .error e) :
    bsp.bounds_check = .error e := by
  unfold bounds_check
  rw [h1, h2, h3, h4]

end CollisionBSPFunctions

/-- Every cross-table reference of the provider resolves: the conclusion of
the validator-soundness claim, table by table. -/
def allReferencesResolve (bsp : CollisionBSPFunctions) : Prop :=
  (∀ i, i < bsp.get_3d_node_count → ∃ node, bsp.get_3d_node i = some node ∧
    (∃ pl, bsp.get_plane node.plane_index = some pl) ∧
    resolves3DChild bsp node.front_child ∧
    resolves3DChild bsp node.back_child) ∧
  (∀ p, p < bsp.get_plane_count → ∃ pl, bsp.get_plane p = some pl) ∧
  (∀ l, l ≤ bsp.get_leaf_count → ∃ leaf, bsp.get_leaf l = some leaf ∧
    leaf.bsp_2d_node_reference_start + leaf.bsp_2d_node_reference_count ≤ USIZE_MAX ∧
    ∀ r, leaf.bsp_2d_node_reference_start ≤ r →
      r < leaf.bsp_2d_node_reference_start + leaf.bsp_2d_node_reference_count →
      ∃ ref, bsp.get_2d_node_reference r = some ref) ∧
  (∀ r, r < bsp.get_2d_node_reference_count →
    ∃ ref, bsp.get_2d_node_reference r = some ref ∧
      (∃ pl, bsp.get_plane ref.plane = some pl) ∧
      ∃ b, ref.node.as_tuple = (CollisionBSP2DNodeIndexType.Node, b) ∧
        ∃ nd, bsp.get_2d_node b = some nd) ∧
  (∀ i, i < bsp.get_2d_node_count → ∃ node, bsp.get_2d_node i = some node ∧
    resolves2DChild bsp node.left_child ∧
    resolves2DChild bsp node.right_child) ∧
  (∀ s, s < bsp.get_surface_count → ∃ srf, bsp.get_surface s = some srf ∧
    ∃ pl, bsp.get_plane srf.plane = some pl)

/-- C1: Validator soundness — whenever `bounds_check` returns `Ok(())`,
every cross-table reference resolves: every 3D node below the count exists,
its plane resolves and its non-null children decode to existing 3D nodes or
leaves; every plane below the plane count resolves; every leaf reached by
the (inclusive) leaf loop exists, its reference range does not overflow and
every index in `[start, start + count)` resolves; every 2D node reference
below the count exists, its plane resolves and its child decodes to an
existing 2D node; every 2D node's children decode to existing 2D nodes or
surfaces; and every surface's plane resolves. -/
theorem bounds_check_sound (bsp : CollisionBSPFunctions)
    (h : bsp.bounds_check = .ok ()) : allReferencesResolve bsp := by
  obtain ⟨h1, h2, h3, h4, h5, h6⟩ := CollisionBSPFunctions.bounds_check_ok h
  refine ⟨fun i hi => ?_, fun p hp => ?_, fun l hl => ?_, fun r hr => ?_,
    fun i hi => ?_, fun s hs => ?_⟩
  · have hk := CollisionBSPFunctions.checkRange_ok _ _ h1 i
      (lt_of_lt_of_le hi (Nat.le_max_left _ 1))
    rw [Nat.zero_add] at hk
    exact CollisionBSPFunctions.check3DNodeAt_ok hk
  · have hk := CollisionBSPFunctions.checkRange_ok _ _ h2 p hp
    rw [Nat.zero_add] at hk
    exact CollisionBSPFunctions.checkPlaneAt_ok hk
  · have hk := CollisionBSPFunctions.checkRange_ok _ _ h3 l (by omega)
    rw [Nat.zero_add] at hk
    exact CollisionBSPFunctions.checkLeafAt_ok hk
  · have hk := CollisionBSPFunctions.checkRange_ok _ _ h4 r hr
    rw [Nat.zero_add] at hk
    exact CollisionBSPFunctions.check2DReferenceAt_ok hk
  · have hk := CollisionBSPFunctions.checkRange_ok _ _ h5 i hi
    rw [Nat.zero_add] at hk
    exact CollisionBSPFunctions.check2DNodeAt_ok hk
  · have hk := CollisionBSPFunctions.checkRange_ok _ _ h6 s hs
    rw [Nat.zero_add] at hk
    exact CollisionBSPFunctions.checkSurfaceAt_ok hk

/-- Witness for C1: the concrete provider `mkBSP 8` passes `bounds_check`,
and the soundness theorem then yields that all of its references resolve. -/
theorem bounds_check_sound_witness :
    (mkBSP 8).bounds_check = .ok () ∧ allReferencesResolve (mkBSP 8) :=
  ⟨rfl, bounds_check_sound (mkBSP 8) rfl⟩

theorem checkLeafAt_ok_of {bsp : CollisionBSPFunctions} {l : Nat}
    {leaf : CollisionBSPLeaf} (hg : bsp.get_leaf l = some leaf)
    (hov : leaf.bsp_2d_node_reference_start + leaf.bsp_2d_node_reference_count ≤
      USIZE_MAX)
    (hr : ∀ r, leaf.bsp_2d_node_reference_start ≤ r →
      r < leaf.bsp_2d_node_reference_start + leaf.bsp_2d_node_reference_count →
      ∃ ref, bsp.get_2d_node_reference r = some ref) :
    bsp.checkLeafAt l = .ok () := by
  unfold CollisionBSPFunctions.checkLeafAt
  simp only [hg, usizeCheckedAdd, if_pos hov]
  apply CollisionBSPFunctions.checkRange_all_ok
  intro k hk
  obtain ⟨ref, href⟩ := hr (leaf.bsp_2d_node_reference_start + k) (by omega) (by omega)
  unfold CollisionBSPFunctions.checkLeafRefAt
  simp only [href]

theorem check2DReferenceAt_ok_of {bsp : CollisionBSPFunctions} {r : Nat}
    (h : ∃ ref, bsp.get_2d_node_reference r = some ref ∧
      (∃ pl, bsp.get_plane ref.plane = some pl) ∧
      ∃ b, ref.node.as_tuple = (CollisionBSP2DNodeIndexType.Node, b) ∧
        ∃ nd, bsp.get_2d_node b = some nd) :
    bsp.check2DReferenceAt r = .ok () := by
  obtain ⟨ref, hg, ⟨pl, hp⟩, b, hb, nd, hn⟩ := h
  unfold CollisionBSPFunctions.check2DReferenceAt
  simp only [hg, hp, hb, hn]

theorem checkLeafRefAt_cases (bsp : CollisionBSPFunctions) (r : Nat) :
    bsp.checkLeafRefAt r = .ok () ∨
      bsp.checkLeafRefAt r = .error (.Missing2DNodeReference r) := by
  unfold CollisionBSPFunctions.checkLeafRefAt
  cases bsp.get_2d_node_reference r <;> simp

theorem checkRange_leafRef_no_badLeaf (bsp : CollisionBSPFunctions) :
    ∀ (n lo j : Nat),
      CollisionBSPFunctions.checkRange bsp.checkLeafRefAt lo n ≠ .error (.BadLeaf j)
  | 0, lo, j => by unfold CollisionBSPFunctions.checkRange; simp
  | n + 1, lo, j => by
    unfold CollisionBSPFunctions.checkRange
    rcases checkLeafRefAt_cases bsp lo with hok | herr
    · rw [hok]
      exact checkRange_leafRef_no_badLeaf bsp n (lo + 1) j
    · rw [herr]
      simp

/-- C5: Inclusive leaf-validation bound — the leaf loop runs over
`0..=leaf_count`, so when every leaf strictly below the count resolves (the
leaf exists, its range sum does not overflow and every index of its range
resolves), the earlier 3D-node and plane phases pass, and the leaf at index
`leaf_count` is absent, `bounds_check` fails with the missing-leaf error at
index `leaf_count`. -/
theorem missing_leaf_at_leaf_count (bsp : CollisionBSPFunctions)
    (h1 : bsp.check3DNodes = .ok ()) (h2 : bsp.checkPlanes = .ok ())
    (h3 : ∀ l, l < bsp.get_leaf_count → ∃ leaf, bsp.get_leaf l = some leaf ∧
      leaf.bsp_2d_node_reference_start + leaf.bsp_2d_node_reference_count ≤
        USIZE_MAX ∧
      ∀ r, leaf.bsp_2d_node_reference_start ≤ r →
        r < leaf.bsp_2d_node_reference_start + leaf.bsp_2d_node_reference_count →
        ∃ ref, bsp.get_2d_node_reference r = some ref)
    (h4 : bsp.get_leaf bsp.get_leaf_count = none) :
    bsp.bounds_check = .error (.MissingLeaf bsp.get_leaf_count) := by
  apply CollisionBSPFunctions.bounds_check_error_at_leaves h1 h2
  unfold CollisionBSPFunctions.checkLeaves
  refine CollisionBSPFunctions.checkRange_error _ 0 bsp.get_leaf_count
    (fun k hk => ?_) (by omega) ?_
  · rw [Nat.zero_add]
    obtain ⟨leaf, hg, hov, hr⟩ := h3 k hk
    exact checkLeafAt_ok_of hg hov hr
  · rw [Nat.zero_add]
    unfold CollisionBSPFunctions.checkLeafAt
    simp only [h4]

/-- Witness for C5: `missingLeafBSP` has leaf count 0 and no leaf 0, its
3D-node and plane phases pass, and `bounds_check` reports the missing leaf
at index 0 (the leaf count itself). -/
theorem missing_leaf_at_leaf_count_witness :
    missingLeafBSP.get_leaf_count = 0 ∧ missingLeafBSP.get_leaf 0 = none ∧
    missingLeafBSP.bounds_check = .error (.MissingLeaf 0) :=
  ⟨rfl, rfl,
    missing_leaf_at_leaf_count missingLeafBSP rfl rfl
      (fun l hl => absurd hl (Nat.not_lt_zero l)) rfl⟩

/-- C6 counterexample: in the dangling-reference scenario (leaf start 5,
count 3, 2D-node-reference table of length 6, all other checks passing)
`bounds_check` fails with the missing-2D-node-reference error at index 6 —
the first index past the table — not at index 7 as the claim states. -/
theorem dangling_reference_counterexample :
    (mkBSP 6).bounds_check = .error (.Missing2DNodeReference 6) ∧
    (mkBSP 6).bounds_check ≠ .error (.Missing2DNodeReference 7) := by
  refine ⟨rfl, fun hc => ?_⟩
  have h6 : (mkBSP 6).bounds_check = .error (.Missing2DNodeReference 6) := rfl
  rw [h6] at hc
  have h67 := CollisionBSPError.Missing2DNodeReference.inj (Except.error.inj hc)
  omega

/-- C6 amended: with a reference table of length 6 the dangling leaf range
`[5, 8)` makes `bounds_check` fail with the missing-2D-node-reference error
at index 6 (the first missing index, since the loop fails fast); with a
table of length 8 the whole `bounds_check` succeeds. -/
theorem dangling_reference_boundary :
    (mkBSP 6).bounds_check = .error (.Missing2DNodeReference 6) ∧
    (mkBSP 8).bounds_check = .ok () :=
  ⟨rfl, rfl⟩

/-- C7: Illegal 2D entry point — when the earlier phases pass, every 2D
node reference before `r` passes its check, `r` is below the reference
count, reference `r` exists, its plane resolves, and its child decodes to
a surface, `bounds_check` fails with the bad-2D-reference error at `r`. -/
theorem bad_2d_reference_error (bsp : CollisionBSPFunctions) (r s : Nat)
    (ref : BSP2DNodeReference)
    (h1 : bsp.check3DNodes = .ok ()) (h2 : bsp.checkPlanes = .ok ())
    (h3 : bsp.checkLeaves = .ok ())
    (h4 : ∀ q, q < r → ∃ ref2, bsp.get_2d_node_reference q = some ref2 ∧
      (∃ pl, bsp.get_plane ref2.plane = some pl) ∧
      ∃ b, ref2.node.as_tuple = (CollisionBSP2DNodeIndexType.Node, b) ∧
        ∃ nd, bsp.get_2d_node b = some nd)
    (h5 : r < bsp.get_2d_node_reference_count)
    (h6 : bsp.get_2d_node_reference r = some ref)
    (h7 : ∃ pl, bsp.get_plane ref.plane = some pl)
    (h8 : ref.node.as_tuple = (CollisionBSP2DNodeIndexType.Surface, s)) :
    bsp.bounds_check = .error (.Bad2DReference r) := by
  apply CollisionBSPFunctions.bounds_check_error_at_references h1 h2 h3
  unfold CollisionBSPFunctions.check2DReferences
  refine CollisionBSPFunctions.checkRange_error _ 0 r (fun q hq => ?_) h5 ?_
  · rw [Nat.zero_add]
    exact check2DReferenceAt_ok_of (h4 q hq)
  · rw [Nat.zero_add]
    obtain ⟨pl, hp⟩ := h7
    unfold CollisionBSPFunctions.check2DReferenceAt
    simp only [h6, hp, h8]

/-- Witness for C7: `badRefBSP`'s single 2D node reference has a child with
the high bit set (raw `0x80000000`, decoding to surface 0), and
`bounds_check` reports the bad-2D-reference error at index 0. -/
theorem bad_2d_reference_error_witness :
    badRefBSP.get_2d_node_reference 0 = some ⟨0, ⟨0x80000000⟩⟩ ∧
    (⟨0x80000000⟩ : CollisionBSP2DNodeIndex).as_tuple =
      (CollisionBSP2DNodeIndexType.Surface, 0) ∧
    badRefBSP.bounds_check = .error (.Bad2DReference 0) :=
  ⟨rfl, by decide,
    bad_2d_reference_error badRefBSP 0 0 ⟨0, ⟨0x80000000⟩⟩ rfl rfl rfl
      (fun q hq => absurd hq (Nat.not_lt_zero q)) Nat.zero_lt_one rfl
      ⟨zeroPlane, rfl⟩ (by decide)⟩

/-- C8: Leaf range overflow — for a leaf reached by the validation loop
(earlier phases pass, all leaves before it pass, its index is at most the
leaf count, and it exists): if its start/count sum exceeds `USIZE_MAX`,
`bounds_check` fails with the bad-leaf error at that index; if the sum does
not overflow, the leaf's check never produces a bad-leaf error. -/
theorem bad_leaf_overflow (bsp : CollisionBSPFunctions) (l : Nat)
    (leaf : CollisionBSPLeaf)
    (h1 : bsp.check3DNodes = .ok ()) (h2 : bsp.checkPlanes = .ok ())
    (h3 : ∀ m, m < l → ∃ leaf2, bsp.get_leaf m = some leaf2 ∧
      leaf2.bsp_2d_node_reference_start + leaf2.bsp_2d_node_reference_count ≤
        USIZE_MAX ∧
      ∀ r, leaf2.bsp_2d_node_reference_start ≤ r →
        r < leaf2.bsp_2d_node_reference_start + leaf2.bsp_2d_node_reference_count →
        ∃ ref, bsp.get_2d_node_reference r = some ref)
    (h4 : l ≤ bsp.get_leaf_count)
    (h5 : bsp.get_leaf l = some leaf) :
    (USIZE_MAX < leaf.bsp_2d_node_reference_start +
        leaf.bsp_2d_node_reference_count →
      bsp.bounds_check = .error (.BadLeaf l)) ∧
    (leaf.bsp_2d_node_reference_start + leaf.bsp_2d_node_reference_count ≤
        USIZE_MAX →
      bsp.checkLeafAt l ≠ .error (.BadLeaf l)) := by
  constructor
  · intro hov
    apply CollisionBSPFunctions.bounds_check_error_at_leaves h1 h2
    unfold CollisionBSPFunctions.checkLeaves
    refine CollisionBSPFunctions.checkRange_error _ 0 l (fun m hm => ?_)
      (by omega) ?_
    · rw [Nat.zero_add]
      obtain ⟨leaf2, hg, ho, hr⟩ := h3 m hm
      exact checkLeafAt_ok_of hg ho hr
    · rw [Nat.zero_add]
      unfold CollisionBSPFunctions.checkLeafAt
      simp only [h5, usizeCheckedAdd, if_neg (by omega :
        ¬ leaf.bsp_2d_node_reference_start + leaf.bsp_2d_node_reference_count ≤
          USIZE_MAX)]
  · intro hov hbad
    unfold CollisionBSPFunctions.checkLeafAt at hbad
    simp only [h5, usizeCheckedAdd, if_pos hov] at hbad
    exact checkRange_leafRef_no_badLeaf bsp _ _ l hbad

/-- Witness for C8: `overflowBSP`'s leaf 0 has start `USIZE_MAX` and
count 1, whose sum overflows, and `bounds_check` reports the bad-leaf
error at index 0. -/
theorem bad_leaf_overflow_witness :
    overflowBSP.get_leaf 0 = some ⟨false, USIZE_MAX, 1⟩ ∧
    USIZE_MAX < USIZE_MAX + 1 ∧
    overflowBSP.bounds_check = .error (.BadLeaf 0) :=
  ⟨rfl, by omega,
    (bad_leaf_overflow overflowBSP 0 ⟨false, USIZE_MAX, 1⟩ rfl rfl
      (fun m hm => absurd hm (Nat.not_lt_zero m)) (Nat.zero_le _) rfl).1
      (show USIZE_MAX < USIZE_MAX + 1 by omega)⟩

/-- C4: 3D index decoding — over every 32-bit value `raw`, `as_tuple` is
`none` exactly for the sentinel `0xFFFFFFFF`; otherwise it is
`(Node, raw &&& 0x7FFFFFFF)` when bit 31 of `raw` is clear and
`(Leaf, raw &&& 0x7FFFFFFF)` when bit 31 is set. (Totality and purity are
inherent: `as_tuple` is a total function.) -/
theorem as_tuple_decodes_3d_index (raw : Nat) (h : raw < 2 ^ 32) :
    (CollisionBSP3DNodeIndex.as_tuple ⟨raw⟩ = none ↔ raw = 0xFFFFFFFF) ∧
    (raw ≠ 0xFFFFFFFF → raw.testBit 31 = false →
      CollisionBSP3DNodeIndex.as_tuple ⟨raw⟩ =
        some (CollisionBSP3DNodeIndexType.Node, raw &&& 0x7FFFFFFF)) ∧
    (raw ≠ 0xFFFFFFFF → raw.testBit 31 = true →
      CollisionBSP3DNodeIndex.as_tuple ⟨raw⟩ =
        some (CollisionBSP3DNodeIndexType.Leaf, raw &&& 0x7FFFFFFF)) := by
  have hmask : raw &&& 0x7FFFFFFF = raw % 2 ^ 31 := by
    have := Nat.and_pow_two_sub_one_eq_mod raw 31
    norm_num at this ⊢
    exact this
  have hbit : raw.testBit 31 = decide (raw / 2 ^ 31 % 2 = 1) :=
    Nat.testBit_to_div_mod
  refine ⟨?_, ?_, ?_⟩
  · unfold CollisionBSP3DNodeIndex.as_tuple
    by_cases hc : raw = 0xFFFFFFFF
    · simp [hc]
    · simp [hc]
  · intro hne hb
    have hlt : raw < 2 ^ 31 := by
      rw [hbit] at hb
      simp only [decide_eq_false_iff_not] at hb
      omega
    unfold CollisionBSP3DNodeIndex.as_tuple
    rw [if_neg hne]
    have heq : raw &&& 0x7FFFFFFF = raw := by
      rw [hmask]
      exact Nat.mod_eq_of_lt hlt
    simp [heq]
  · intro hne hb
    have hge : 2 ^ 31 ≤ raw := by
      rw [hbit] at hb
      simp only [decide_eq_true_eq] at hb
      omega
    unfold CollisionBSP3DNodeIndex.as_tuple
    rw [if_neg hne]
    have hne2 : raw &&& 0x7FFFFFFF ≠ raw := by
      rw [hmask]
      have : raw % 2 ^ 31 < 2 ^ 31 := Nat.mod_lt _ (by norm_num)
      omega
    simp only [if_neg hne2]

/-- Witness for C4: the codec theorem applied at the concrete 32-bit values
`5` (node), `0x80000005` (leaf) and the sentinel. -/
theorem as_tuple_decodes_3d_index_witness :
    (5 < 2 ^ 32 ∧
      CollisionBSP3DNodeIndex.as_tuple ⟨5⟩ =
        some (CollisionBSP3DNodeIndexType.Node, 5 &&& 0x7FFFFFFF)) ∧
    CollisionBSP3DNodeIndex.as_tuple ⟨0x80000005⟩ =
      some (CollisionBSP3DNodeIndexType.Leaf, 0x80000005 &&& 0x7FFFFFFF) ∧
    (CollisionBSP3DNodeIndex.as_tuple ⟨0xFFFFFFFF⟩ = none ↔
      (0xFFFFFFFF : Nat) = 0xFFFFFFFF) :=
  ⟨⟨by norm_num,
      (as_tuple_decodes_3d_index 5 (by norm_num)).2.1 (by norm_num) (by decide)⟩,
    (as_tuple_decodes_3d_index 0x80000005 (by norm_num)).2.2 (by norm_num)
      (by decide),
    (as_tuple_decodes_3d_index 0xFFFFFFFF (by norm_num)).1⟩

/-! ### Traversal lemmas and claims -/

/-- The zero-normal plane gives every point distance `0`. -/
theorem zeroPlane_dist (p : Vector3D) : zeroPlane.distance_to_point p = 0 := by
  simp [zeroPlane, Plane3D.distance_to_point, Vector3D.dot]

/-- Continuation of the 3D descent on a decoded child: recurse into a node,
succeed on a leaf, report "outside" on the null sentinel. This names the
common continuation of both branches of the loop body. -/
def CollisionBSPFunctions.continue3D (bsp : CollisionBSPFunctions)
    (point : Vector3D) (fuel : Nat) (c : CollisionBSP3DNodeIndex) :
    Except CollisionBSPError (Option Nat) :=
  match c.as_tuple with
  | some (CollisionBSP3DNodeIndexType.Node, j) => bsp.leafIndexLoop point fuel j
  | some (CollisionBSP3DNodeIndexType.Leaf, l) => .ok (some l)
  | none => .ok none

theorem leafIndexTrace_length_le (bsp : CollisionBSPFunctions) (p : Vector3D) :
    ∀ (fuel i : Nat), (bsp.leafIndexTrace p fuel i).length ≤ fuel
  | 0, _ => Nat.le_refl 0
  | fuel + 1, i => by
    unfold CollisionBSPFunctions.leafIndexTrace
    split
    · simp
    · split
      · simp
      · dsimp only
        split
        · simp only [List.length_cons]
          exact Nat.succ_le_succ (leafIndexTrace_length_le bsp p fuel _)
        · simp
        · simp

theorem leafIndexLoop_exhausts {bsp : CollisionBSPFunctions} {p : Vector3D} :
    ∀ {fuel i j : Nat},
      bsp.leafIndexLoop p fuel i = .error (.BSP3DNodeLoop j) →
      (bsp.leafIndexTrace p fuel i).length = fuel := by
  intro fuel
  induction fuel with
  | zero => intro i j _; rfl
  | succ fuel ih =>
    intro i j h
    unfold CollisionBSPFunctions.leafIndexLoop at h
    unfold CollisionBSPFunctions.leafIndexTrace
    split at h
    · simp at h
    · split at h
      · simp at h
      · dsimp only at h ⊢
        split at h
        · simp only [List.length_cons, ih h]
        · simp at h
        · simp at h

/-- C2 counterexample: on `chainBSP` (two nodes, front chain `0 → 1 → 2`),
`leaf_index_for_point` exhausts its budget of `max(2, 1) = 2` and reports
the 3D-node-loop error with index 2 — but the visited nodes are `[0, 1]`
(the last visited node is 1), and node 2 does not even exist in the table,
so the reported index is not the last visited node index. -/
theorem loop_error_not_last_visited :
    chainBSP.leaf_index_for_point originPoint = .error (.BSP3DNodeLoop 2) ∧
    chainBSP.visited3DNodes originPoint = [0, 1] ∧
    chainBSP.get_3d_node 2 = none := by
  refine ⟨?_, ?_, rfl⟩
  · simp [CollisionBSPFunctions.leaf_index_for_point,
      CollisionBSPFunctions.leafIndexLoop, chainBSP, zeroPlane_dist,
      CollisionBSP3DNodeIndex.as_tuple, nullIdx,
      (by decide : (1 : Nat) &&& 2147483647 = 1),
      (by decide : (2 : Nat) &&& 2147483647 = 2)]
  · simp [CollisionBSPFunctions.visited3DNodes,
      CollisionBSPFunctions.leafIndexTrace, chainBSP, zeroPlane_dist,
      CollisionBSP3DNodeIndex.as_tuple, nullIdx,
      (by decide : (1 : Nat) &&& 2147483647 = 1),
      (by decide : (2 : Nat) &&& 2147483647 = 2)]

/-- C2 amended: `leaf_index_for_point` evaluates at most `max(node_count, 1)`
3D nodes; when it exhausts that budget it fails with the 3D-node-loop
error after evaluating exactly `max(node_count, 1)` nodes, reporting the
index of the node that would have been examined next (not necessarily the
last visited node); and on the self-loop table where node 0's front child
points back to node 0 it returns the 3D-node-loop error at node 0 rather
than looping forever. -/
theorem loop_budget_and_cycle_detection :
    (∀ (bsp : CollisionBSPFunctions) (p : Vector3D),
      (bsp.visited3DNodes p).length ≤ Nat.max bsp.get_3d_node_count 1) ∧
    (∀ (bsp : CollisionBSPFunctions) (p : Vector3D) (j : Nat),
      bsp.leaf_index_for_point p = .error (.BSP3DNodeLoop j) →
      (bsp.visited3DNodes p).length = Nat.max bsp.get_3d_node_count 1) ∧
    loopBSP.leaf_index_for_point originPoint = .error (.BSP3DNodeLoop 0) := by
  refine ⟨fun bsp p => leafIndexTrace_length_le bsp p _ 0,
    fun bsp p j h => leafIndexLoop_exhausts h, ?_⟩
  simp [CollisionBSPFunctions.leaf_index_for_point,
    CollisionBSPFunctions.leafIndexLoop, loopBSP, zeroPlane_dist,
    CollisionBSP3DNodeIndex.as_tuple, nullIdx,
    (by decide : (0 : Nat) &&& 2147483647 = 0)]

/-- C3: Descent branch rule — at a step of the loop whose node and plane
resolve, the signed distance is `dot(point, normal) - offset` exactly, and
the loop continues with the front child precisely when that distance is
`≥ 0` (ties included) and with the back child when it is `< 0`. -/
theorem descent_branch_rule (bsp : CollisionBSPFunctions) (p : Vector3D)
    (i fuel : Nat) (node : CollisionBSP3DNode) (plane : Plane3D)
    (hn : bsp.get_3d_node i = some node)
    (hp : bsp.get_plane node.plane_index = some plane) :
    plane.distance_to_point p =
      p.x * plane.vector.x + p.y * plane.vector.y + p.z * plane.vector.z -
        plane.offset ∧
    (plane.distance_to_point p ≥ 0 →
      bsp.leafIndexLoop p (fuel + 1) i =
        bsp.continue3D p fuel node.front_child) ∧
    (plane.distance_to_point p < 0 →
      bsp.leafIndexLoop p (fuel + 1) i =
        bsp.continue3D p fuel node.back_child) := by
  refine ⟨rfl, fun hd => ?_, fun hd => ?_⟩
  · unfold CollisionBSPFunctions.leafIndexLoop CollisionBSPFunctions.continue3D
    simp only [hn, hp]
    rw [if_pos hd]
  · unfold CollisionBSPFunctions.leafIndexLoop CollisionBSPFunctions.continue3D
    simp only [hn, hp]
    rw [if_neg (not_le.mpr hd)]

/-- Witness for C3: the branch rule applied to `mkBSP 8` at node 0 with the
zero plane and the origin (distance 0, a tie, taking the front child). -/
theorem descent_branch_rule_witness :
    (mkBSP 8).get_3d_node 0 = some node0 ∧
    (mkBSP 8).get_plane node0.plane_index = some zeroPlane ∧
    (zeroPlane.distance_to_point originPoint =
      originPoint.x * zeroPlane.vector.x + originPoint.y * zeroPlane.vector.y +
        originPoint.z * zeroPlane.vector.z - zeroPlane.offset ∧
    (zeroPlane.distance_to_point originPoint ≥ 0 →
      (mkBSP 8).leafIndexLoop originPoint (0 + 1) 0 =
        (mkBSP 8).continue3D originPoint 0 node0.front_child) ∧
    (zeroPlane.distance_to_point originPoint < 0 →
      (mkBSP 8).leafIndexLoop originPoint (0 + 1) 0 =
        (mkBSP 8).continue3D originPoint 0 node0.back_child)) :=
  ⟨rfl, rfl, descent_branch_rule (mkBSP 8) originPoint 0 0 node0 zeroPlane rfl rfl⟩

/-- C9: An empty dataset never succeeds — with a 3D-node count of 0 and
every 3D-node lookup absent, the `max(node_count, 1)` bound still forces
one iteration, so `leaf_index_for_point` fails with the missing-3D-node
error at index 0 for every query point (never "outside the BSP"), and
`bounds_check` fails with the missing-3D-node error at index 0. -/
theorem empty_dataset_never_validates (bsp : CollisionBSPFunctions)
    (hc : bsp.get_3d_node_count = 0)
    (hn : ∀ i, bsp.get_3d_node i = none) :
    (∀ p, bsp.leaf_index_for_point p = .error (.Missing3DNode 0)) ∧
    bsp.bounds_check = .error (.Missing3DNode 0) := by
  constructor
  · intro p
    simp [CollisionBSPFunctions.leaf_index_for_point, hc,
      CollisionBSPFunctions.leafIndexLoop, hn]
  · have h0 : bsp.check3DNodes = .error (.Missing3DNode 0) := by
      unfold CollisionBSPFunctions.check3DNodes
      rw [hc]
      simp [CollisionBSPFunctions.checkRange,
        CollisionBSPFunctions.check3DNodeAt, hn]
    unfold CollisionBSPFunctions.bounds_check
    rw [h0]

/-- Witness for C9: the concrete empty provider. -/
theorem empty_dataset_never_validates_witness :
    emptyBSP.get_3d_node_count = 0 ∧
    emptyBSP.leaf_index_for_point originPoint = .error (.Missing3DNode 0) ∧
    emptyBSP.bounds_check = .error (.Missing3DNode 0) :=
  ⟨rfl,
    (empty_dataset_never_validates emptyBSP rfl (fun _ => rfl)).1 originPoint,
    (empty_dataset_never_validates emptyBSP rfl (fun _ => rfl)).2⟩

/-- C10: Localization does not verify leaf existence — `noLeafBSP` has no
leaf at any index, yet its node 0's front child decodes to leaf 0 and
`leaf_index_for_point` returns success with leaf index 0 instead of a
missing-leaf error. -/
theorem leaf_existence_not_checked :
    (∀ l, noLeafBSP.get_leaf l = none) ∧
    noLeafBSP.get_3d_node 0 = some ⟨⟨0x80000000⟩, nullIdx, 0⟩ ∧
    (⟨0x80000000⟩ : CollisionBSP3DNodeIndex).as_tuple =
      some (CollisionBSP3DNodeIndexType.Leaf, 0) ∧
    noLeafBSP.leaf_index_for_point originPoint = .ok (some 0) := by
  refine ⟨fun _ => rfl, rfl, by decide, ?_⟩
  simp [CollisionBSPFunctions.leaf_index_for_point,
    CollisionBSPFunctions.leafIndexLoop, noLeafBSP, zeroPlane_dist,
    CollisionBSP3DNodeIndex.as_tuple, nullIdx,
    (by decide : (2147483648 : Nat) &&& 2147483647 = 0)]

end FunnelWeb
